import Mathlib

/-!
Verification of the local/remote state reconciliation subsystem of the
morning-lavender inventory application.

The definitions below are a shallow embedding of the TypeScript source:
 * the entity types from `src/types.ts`,
 * the reducer `appReducer` and the sync functions `syncWithSupabase` /
   `autoSyncWithSupabase` from `src/context/AppContext.tsx`,
 * `handleProductUpdate` / `handleSubmitOrder` from
   `src/components/InventoryScreen.tsx`,
 * the auto-order evaluation from `src/components/ProductCard.tsx`.

Remote calls (SupabaseService) are modelled by an oracle record `Gateway`
whose fields give the outcome of each remote operation; a thrown JS
exception is `Except.error`.  `localStorage` state relevant to the claims
(the tombstone ledgers) is modelled by the `Ledger` record; the opaque
snapshot-cache writes (`cafe-inventory-*` keys) have no bearing on the
claims and are not tracked.  Timestamps (`Date.now()` milliseconds) are
`Int`.
-/

namespace MLInventory

/-- `Location` from src/types.ts. -/
structure Location where
  id : String
  name : String
  address : Option String
deriving DecidableEq

/-- `Category` from src/types.ts. -/
structure Category where
  id : String
  name : String
  color : Option String
deriving DecidableEq

/-- `Supplier` from src/types.ts. -/
structure Supplier where
  id : String
  name : String
deriving DecidableEq

/-- `ProductLocation` from src/types.ts. -/
structure ProductLocation where
  locationId : String
  minThreshold : Option Nat
  isAvailable : Bool
deriving DecidableEq

/-- `Product` from src/types.ts. -/
structure Product where
  id : String
  name : String
  categories : List String
  suppliers : List String
  locations : List ProductLocation
  requiresQuantity : Bool
deriving DecidableEq

/-- `InventoryItem` from src/types.ts. -/
structure InventoryItem where
  productId : String
  locationId : String
  currentQuantity : Option Nat
  shouldOrder : Bool
  lastOrderDate : Option String
deriving DecidableEq

/-- `InventorySession` from src/types.ts. -/
structure InventorySession where
  id : String
  locationId : String
  userName : String
  startDate : String
  endDate : Option String
  items : List InventoryItem
  isSubmitted : Bool
deriving DecidableEq

/-- `OrderHistoryItem` from src/types.ts. -/
structure OrderHistoryItem where
  productId : String
  locationId : String
  orderDate : String
  quantityOrdered : Option Nat
  sessionId : String
  suppliers : List String
  categoryIds : List String
deriving DecidableEq

/-- `AppState` from src/types.ts: the root aggregate held by the reducer. -/
structure AppState where
  locations : List Location
  categories : List Category
  suppliers : List Supplier
  products : List Product
  sessions : List InventorySession
  orderHistory : List OrderHistoryItem
  currentSession : Option InventorySession
deriving DecidableEq

/-- The `AppAction` union type of AppContext.tsx. -/
inductive AppAction where
  | setLocations (payload : List Location)
  | setCategories (payload : List Category)
  | setSuppliers (payload : List Supplier)
  | setProducts (payload : List Product)
  | setSessions (payload : List InventorySession)
  | setOrderHistory (payload : List OrderHistoryItem)
  | setCurrentSession (payload : Option InventorySession)
  | addLocation (payload : Location)
  | addCategory (payload : Category)
  | addSupplier (payload : Supplier)
  | addProduct (payload : Product)
  | updateSession (payload : InventorySession)
  | addOrderHistoryItems (payload : List OrderHistoryItem)
  | updateLocation (payload : Location)
  | updateCategory (payload : Category)
  | updateSupplier (payload : Supplier)
  | updateProduct (payload : Product)
  | deleteLocation (payload : String)
  | deleteCategory (payload : String)
  | deleteSupplier (payload : String)
  | deleteProduct (payload : String)
  | deleteSession (payload : String)
deriving DecidableEq

/-- The state part of `appReducer` (AppContext.tsx, lines 53-230).  The
`localStorage` tombstone writes done by the three delete cases are the
separate function `recordTombstones` below; everything else in the JS
reducer is pure state computation and is reproduced here case by case. -/
def appReducer (state : AppState) (action : AppAction) : AppState :=
  match action with
  | .setLocations payload => { state with locations := payload }
  | .setCategories payload => { state with categories := payload }
  | .setSuppliers payload => { state with suppliers := payload }
  | .setProducts payload => { state with products := payload }
  | .setSessions payload =>
    -- Preserve current session if it is not in the new sessions list;
    -- otherwise replace it with the synced version found in the payload.
    let preservedCurrentSession :=
      match state.currentSession with
      | none => none
      | some cs =>
        match payload.find? (fun s => s.id == cs.id) with
        | none => some cs
        | some updatedCurrentSession => some updatedCurrentSession
    { state with sessions := payload, currentSession := preservedCurrentSession }
  | .setOrderHistory payload => { state with orderHistory := payload }
  | .setCurrentSession payload =>
    match payload with
    | some newSession =>
      if (state.sessions.find? (fun s => s.id == newSession.id)).isNone then
        { state with currentSession := some newSession,
                     sessions := state.sessions ++ [newSession] }
      else
        { state with currentSession := some newSession }
    | none => { state with currentSession := none }
  | .addLocation payload => { state with locations := state.locations ++ [payload] }
  | .addCategory payload => { state with categories := state.categories ++ [payload] }
  | .addSupplier payload => { state with suppliers := state.suppliers ++ [payload] }
  | .addProduct payload => { state with products := state.products ++ [payload] }
  | .updateSession payload =>
    let mappedSessions := state.sessions.map (fun session =>
      if session.id == payload.id then payload else session)
    let updatedSessions :=
      if (state.sessions.find? (fun s => s.id == payload.id)).isNone then
        mappedSessions ++ [payload]
      else
        mappedSessions
    { state with
      sessions := updatedSessions,
      currentSession :=
        match state.currentSession with
        | some cs => if cs.id == payload.id then some payload else some cs
        | none => none }
  | .addOrderHistoryItems payload =>
    { state with orderHistory := state.orderHistory ++ payload }
  | .updateLocation payload =>
    { state with locations := state.locations.map (fun location =>
        if location.id == payload.id then payload else location) }
  | .updateCategory payload =>
    { state with categories := state.categories.map (fun category =>
        if category.id == payload.id then payload else category) }
  | .updateSupplier payload =>
    { state with suppliers := state.suppliers.map (fun supplier =>
        if supplier.id == payload.id then payload else supplier) }
  | .updateProduct payload =>
    { state with products := state.products.map (fun product =>
        if product.id == payload.id then payload else product) }
  | .deleteLocation payload =>
    { state with locations := state.locations.filter (fun location =>
        !(location.id == payload)) }
  | .deleteCategory payload =>
    { state with
      categories := state.categories.filter (fun category =>
        !(category.id == payload)),
      products := state.products.map (fun product =>
        { product with categories := product.categories.filter (fun catId =>
            !(catId == payload)) }) }
  | .deleteSupplier payload =>
    { state with suppliers := state.suppliers.filter (fun supplier =>
        !(supplier.id == payload)) }
  | .deleteProduct payload =>
    { state with
      products := state.products.filter (fun product => !(product.id == payload)),
      currentSession :=
        match state.currentSession with
        | some cs => some { cs with items := cs.items.filter (fun item =>
            !(item.productId == payload)) }
        | none => none }
  | .deleteSession payload =>
    { state with
      sessions := state.sessions.filter (fun session => !(session.id == payload)),
      orderHistory := state.orderHistory.filter (fun item =>
        !(item.sessionId == payload)) }

/-- A tombstone entry: an entity id with its deletion timestamp, as stored
in the `deleted-*-with-timestamp` localStorage keys. -/
structure TombstoneEntry where
  entityId : String
  timestamp : Int
deriving DecidableEq

/-- The three tombstone ledgers kept in localStorage, each as the parallel
pair of a simple id list (`deleted-sessions` etc.) and a timestamped list
(`deleted-sessions-with-timestamp` etc.). -/
structure Ledger where
  deletedSessions : List String
  deletedSessionsTs : List TombstoneEntry
  deletedCategories : List String
  deletedCategoriesTs : List TombstoneEntry
  deletedProducts : List String
  deletedProductsTs : List TombstoneEntry
deriving DecidableEq

/-- The tombstone-recording side effect of the reducer's DELETE_CATEGORY,
DELETE_PRODUCT and DELETE_SESSION cases (AppContext.tsx lines 156-226):
each appends the deleted id together with `Date.now()` to both the simple
and the timestamped localStorage list of its kind. -/
def recordTombstones (led : Ledger) (now : Int) (action : AppAction) : Ledger :=
  match action with
  | .deleteCategory payload =>
    { led with
      deletedCategories := led.deletedCategories ++ [payload],
      deletedCategoriesTs := led.deletedCategoriesTs ++ [⟨payload, now⟩] }
  | .deleteProduct payload =>
    { led with
      deletedProducts := led.deletedProducts ++ [payload],
      deletedProductsTs := led.deletedProductsTs ++ [⟨payload, now⟩] }
  | .deleteSession payload =>
    { led with
      deletedSessions := led.deletedSessions ++ [payload],
      deletedSessionsTs := led.deletedSessionsTs ++ [⟨payload, now⟩] }
  | _ => led

/-- JS truthiness of a `localStorage.getItem` result: `null` and the empty
string are falsy, any other string is truthy. -/
def truthy : Option String → Bool
  | none => false
  | some s => !(s == "")

/-- The localStorage configuration values read by the sync functions. -/
structure Config where
  supabaseUrl : Option String
  supabaseKey : Option String
  emailServiceId : Option String
  emailTemplateId : Option String
  emailPublicKey : Option String
deriving DecidableEq

/-- The result of `supabaseService.syncFromDatabase()`. -/
structure RemoteData where
  locations : List Location
  categories : List Category
  suppliers : List Supplier
  products : List Product
  sessions : List InventorySession
  orderHistory : List OrderHistoryItem
deriving DecidableEq

/-- The result of `supabaseService.getAppSettings()` (only the fields the
sync path consumes). -/
structure AppSettings where
  emailServiceId : Option String
  emailTemplateId : Option String
  emailPublicKey : Option String
deriving DecidableEq

/-- One invocation of a Remote Data Gateway (SupabaseService) method, for
tracing which remote calls a run performs. -/
inductive GatewayCall where
  | testConnection
  | upsertLocation (l : Location)
  | upsertCategory (c : Category)
  | upsertSupplier (s : Supplier)
  | upsertProduct (p : Product)
  | upsertSession (s : InventorySession)
  | addOrderHistoryItems (items : List OrderHistoryItem)
  | upsertAppSetting (key value : String)
  | syncFromDatabase
  | getAppSettings
deriving DecidableEq

/-- Oracle for the Remote Data Gateway: each field fixes the outcome of the
corresponding SupabaseService operation for this run.  `Except.error e`
models a thrown exception with message `e`. -/
structure Gateway where
  initializeOk : Bool
  testConnection : Except String Bool
  upsertLocation : Location → Except String Unit
  upsertCategory : Category → Except String Unit
  upsertSupplier : Supplier → Except String Unit
  upsertProduct : Product → Except String Unit
  upsertSession : InventorySession → Except String Unit
  addOrderHistoryItems : List OrderHistoryItem → Except String Unit
  upsertAppSetting : String → String → Except String Unit
  syncFromDatabase : Except String RemoteData
  getAppSettings : Except String AppSettings

/-- Sequential `for ... of` push loop over one entity collection
(AppContext.tsx lines 398-416): upserts one entity at a time, stopping at
the first thrown exception; returns the outcome together with the trace of
gateway calls made. -/
def pushAll {α : Type} (upsert : α → Except String Unit) (mk : α → GatewayCall) :
    List α → Except String Unit × List GatewayCall
  | [] => (Except.ok (), [])
  | x :: xs =>
    match upsert x with
    | Except.error e => (Except.error e, [mk x])
    | Except.ok _ =>
      let rest := pushAll upsert mk xs
      (rest.1, mk x :: rest.2)

/-- The email-settings push (AppContext.tsx lines 423-434): if all three
EmailJS values are present in localStorage, upsert each as an app setting
(a `Promise.all`; a rejection of any one rejects the whole step). -/
def pushEmailSettings (cfg : Config) (gw : Gateway) :
    Except String Unit × List GatewayCall :=
  if truthy cfg.emailServiceId && truthy cfg.emailTemplateId &&
      truthy cfg.emailPublicKey then
    let sid := cfg.emailServiceId.getD ""
    let tid := cfg.emailTemplateId.getD ""
    let pk := cfg.emailPublicKey.getD ""
    let r1 := gw.upsertAppSetting "emailServiceId" sid
    let r2 := gw.upsertAppSetting "emailTemplateId" tid
    let r3 := gw.upsertAppSetting "emailPublicKey" pk
    let outcome :=
      match r1 with
      | Except.error e => Except.error e
      | Except.ok _ =>
        match r2 with
        | Except.error e => Except.error e
        | Except.ok _ => r3
    (outcome,
     [GatewayCall.upsertAppSetting "emailServiceId" sid,
      GatewayCall.upsertAppSetting "emailTemplateId" tid,
      GatewayCall.upsertAppSetting "emailPublicKey" pk])
  else
    (Except.ok (), [])

/-- The tombstone filter-and-publish step shared by both sync modes
(AppContext.tsx lines 315-346 and 448-478): filter the fetched data by the
simple tombstone id lists, then dispatch the six SET actions in source
order. -/
def publishFiltered (st : AppState) (led : Ledger) (data : RemoteData) : AppState :=
  let filteredSessions := data.sessions.filter (fun session =>
    !(led.deletedSessions.contains session.id))
  let filteredOrderHistory := data.orderHistory.filter (fun item =>
    !(led.deletedSessions.contains item.sessionId))
  let filteredCategories := data.categories.filter (fun category =>
    !(led.deletedCategories.contains category.id))
  let filteredProducts := data.products.filter (fun product =>
    !(led.deletedProducts.contains product.id))
  let s1 := appReducer st (.setLocations data.locations)
  let s2 := appReducer s1 (.setCategories filteredCategories)
  let s3 := appReducer s2 (.setSuppliers data.suppliers)
  let s4 := appReducer s3 (.setProducts filteredProducts)
  let s5 := appReducer s4 (.setSessions filteredSessions)
  appReducer s5 (.setOrderHistory filteredOrderHistory)

/-- The retention sweep at the end of a successful push-then-pull sync
(AppContext.tsx lines 517-544): keep only tombstone entries whose timestamp
is strictly newer than 30 days before now, and rebuild each simple id list
from the surviving timestamped entries. -/
def pruneLedger (led : Ledger) (now : Int) : Ledger :=
  let cleanupThreshold : Int := now - 30 * 24 * 60 * 60 * 1000
  let validDeletedSessions := led.deletedSessionsTs.filter (fun entry =>
    decide (cleanupThreshold < entry.timestamp))
  let validDeletedCategories := led.deletedCategoriesTs.filter (fun entry =>
    decide (cleanupThreshold < entry.timestamp))
  let validDeletedProducts := led.deletedProductsTs.filter (fun entry =>
    decide (cleanupThreshold < entry.timestamp))
  { deletedSessions := validDeletedSessions.map (fun entry => entry.entityId),
    deletedSessionsTs := validDeletedSessions,
    deletedCategories := validDeletedCategories.map (fun entry => entry.entityId),
    deletedCategoriesTs := validDeletedCategories,
    deletedProducts := validDeletedProducts.map (fun entry => entry.entityId),
    deletedProductsTs := validDeletedProducts }

/-- The push phase of the default push-then-pull sync (AppContext.tsx
lines 397-436), in source order: upsert every location, category, supplier,
product and session one at a time; if local order history is non-empty,
bulk-insert it; finally push the EmailJS settings when configured.  A
thrown exception at any step aborts the phase; the trace records the
gateway calls made up to and including the failing one. -/
def pushPhase (cfg : Config) (st : AppState) (gw : Gateway) :
    Except String Unit × List GatewayCall :=
  let pushLoc := pushAll gw.upsertLocation GatewayCall.upsertLocation st.locations
  match pushLoc.1 with
  | Except.error e => (Except.error e, pushLoc.2)
  | Except.ok _ =>
  let pushCat := pushAll gw.upsertCategory GatewayCall.upsertCategory st.categories
  match pushCat.1 with
  | Except.error e => (Except.error e, pushLoc.2 ++ pushCat.2)
  | Except.ok _ =>
  let pushSup := pushAll gw.upsertSupplier GatewayCall.upsertSupplier st.suppliers
  match pushSup.1 with
  | Except.error e => (Except.error e, pushLoc.2 ++ pushCat.2 ++ pushSup.2)
  | Except.ok _ =>
  let pushProd := pushAll gw.upsertProduct GatewayCall.upsertProduct st.products
  match pushProd.1 with
  | Except.error e =>
    (Except.error e, pushLoc.2 ++ pushCat.2 ++ pushSup.2 ++ pushProd.2)
  | Except.ok _ =>
  let pushSes := pushAll gw.upsertSession GatewayCall.upsertSession st.sessions
  match pushSes.1 with
  | Except.error e =>
    (Except.error e, pushLoc.2 ++ pushCat.2 ++ pushSup.2 ++ pushProd.2 ++ pushSes.2)
  | Except.ok _ =>
  let entityCalls := pushLoc.2 ++ pushCat.2 ++ pushSup.2 ++ pushProd.2 ++ pushSes.2
  let histOutcome :=
    if st.orderHistory.length > 0 then
      match gw.addOrderHistoryItems st.orderHistory with
      | Except.error e =>
        (Except.error e, [GatewayCall.addOrderHistoryItems st.orderHistory])
      | Except.ok _ =>
        (Except.ok (), [GatewayCall.addOrderHistoryItems st.orderHistory])
    else (Except.ok (), [])
  match histOutcome.1 with
  | Except.error e => (Except.error e, entityCalls ++ histOutcome.2)
  | Except.ok _ =>
  let emailPush := pushEmailSettings cfg gw
  (emailPush.1, entityCalls ++ histOutcome.2 ++ emailPush.2)

/-- Outcome of one `syncWithSupabase` run: the Application State Store
state after the run, the tombstone ledger after the run, the error flag
value set by the run (`none` on success, the caught message on failure),
and the trace of Remote Data Gateway calls made. -/
structure SyncResult where
  newState : AppState
  newLedger : Ledger
  error : Option String
  calls : List GatewayCall
deriving DecidableEq

/-- `syncWithSupabase` (AppContext.tsx lines 263-554).  `forcePullFirst`
selects pull-first mode; otherwise the default push-then-pull mode runs.
All remote outcomes come from the `Gateway` oracle; any thrown exception
lands in the top-level catch, which records the message in the error flag
and leaves both the store state and the ledger untouched. -/
def syncWithSupabase (forcePullFirst : Bool) (cfg : Config) (st : AppState)
    (led : Ledger) (now : Int) (gw : Gateway) : SyncResult :=
  if !(truthy cfg.supabaseUrl) || !(truthy cfg.supabaseKey) then
    { newState := st, newLedger := led,
      error := some "Supabase not configured. Please set up in Settings.",
      calls := [] }
  else if !gw.initializeOk then
    { newState := st, newLedger := led,
      error := some "Failed to initialize Supabase connection", calls := [] }
  else
    match gw.testConnection with
    | Except.error e =>
      { newState := st, newLedger := led, error := some e,
        calls := [GatewayCall.testConnection] }
    | Except.ok false =>
      { newState := st, newLedger := led,
        error := some "Failed to connect to Supabase database",
        calls := [GatewayCall.testConnection] }
    | Except.ok true =>
      if forcePullFirst then
        -- Database-first sync: pull, filter tombstones, publish, return.
        match gw.syncFromDatabase with
        | Except.error e =>
          { newState := st, newLedger := led, error := some e,
            calls := [GatewayCall.testConnection, GatewayCall.syncFromDatabase] }
        | Except.ok data =>
          match gw.getAppSettings with
          | Except.error e =>
            { newState := st, newLedger := led, error := some e,
              calls := [GatewayCall.testConnection, GatewayCall.syncFromDatabase,
                        GatewayCall.getAppSettings] }
          | Except.ok _settings =>
            { newState := publishFiltered st led data, newLedger := led,
              error := none,
              calls := [GatewayCall.testConnection, GatewayCall.syncFromDatabase,
                        GatewayCall.getAppSettings] }
      else
        -- Default: push all local data first ...
        match (pushPhase cfg st gw).1 with
        | Except.error e =>
          { newState := st, newLedger := led, error := some e,
            calls := GatewayCall.testConnection :: (pushPhase cfg st gw).2 }
        | Except.ok _ =>
          -- ... then pull fresh data, filter tombstones, publish and prune.
          match gw.syncFromDatabase with
          | Except.error e =>
            { newState := st, newLedger := led, error := some e,
              calls := GatewayCall.testConnection ::
                ((pushPhase cfg st gw).2 ++ [GatewayCall.syncFromDatabase]) }
          | Except.ok data =>
            match gw.getAppSettings with
            | Except.error e =>
              { newState := st, newLedger := led, error := some e,
                calls := GatewayCall.testConnection ::
                  ((pushPhase cfg st gw).2 ++
                    [GatewayCall.syncFromDatabase, GatewayCall.getAppSettings]) }
            | Except.ok _settings =>
              { newState := publishFiltered st led data,
                newLedger := pruneLedger led now,
                error := none,
                calls := GatewayCall.testConnection ::
                  ((pushPhase cfg st gw).2 ++
                    [GatewayCall.syncFromDatabase, GatewayCall.getAppSettings]) }

/-- Outcome of an auto-sync attempt: the boolean the function returns, the
store state and ledger afterwards, and the Remote Data Gateway calls made. -/
structure AutoSyncResult where
  success : Bool
  newState : AppState
  newLedger : Ledger
  calls : List GatewayCall
deriving DecidableEq

/-- `autoSyncWithSupabase` (AppContext.tsx lines 557-582): skips entirely
when Supabase is unconfigured or when an active (unsubmitted) current
session exists; otherwise runs the default push-then-pull sync. -/
def autoSyncWithSupabase (cfg : Config) (st : AppState) (led : Ledger)
    (now : Int) (gw : Gateway) : AutoSyncResult :=
  if !(truthy cfg.supabaseUrl) || !(truthy cfg.supabaseKey) then
    { success := false, newState := st, newLedger := led, calls := [] }
  else
    match st.currentSession with
    | some cs =>
      if !cs.isSubmitted then
        { success := false, newState := st, newLedger := led, calls := [] }
      else
        let r := syncWithSupabase false cfg st led now gw
        { success := true, newState := r.newState, newLedger := r.newLedger,
          calls := r.calls }
    | none =>
      let r := syncWithSupabase false cfg st led now gw
      { success := true, newState := r.newState, newLedger := r.newLedger,
        calls := r.calls }

/-- Body of the periodic 15-minute interval tick (AppContext.tsx lines
810-818): auto-sync only when there is no active unsubmitted session. -/
def periodicSyncTick (cfg : Config) (st : AppState) (led : Ledger)
    (now : Int) (gw : Gateway) : AutoSyncResult :=
  match st.currentSession with
  | none => autoSyncWithSupabase cfg st led now gw
  | some cs =>
    if cs.isSubmitted then autoSyncWithSupabase cfg st led now gw
    else { success := false, newState := st, newLedger := led, calls := [] }

/-- Body of the window-focus handler (AppContext.tsx lines 827-835): the
same guard and auto-sync call as the periodic tick. -/
def handleWindowFocus (cfg : Config) (st : AppState) (led : Ledger)
    (now : Int) (gw : Gateway) : AutoSyncResult :=
  match st.currentSession with
  | none => autoSyncWithSupabase cfg st led now gw
  | some cs =>
    if cs.isSubmitted then autoSyncWithSupabase cfg st led now gw
    else { success := false, newState := st, newLedger := led, calls := [] }

/-- The replacement item built by `handleProductUpdate`
(InventoryScreen.tsx lines 78-84). -/
def newInventoryItem (session : InventorySession) (productId : String)
    (quantity : Option Nat) (shouldOrder : Option Bool) : InventoryItem :=
  { productId := productId,
    locationId := session.locationId,
    currentQuantity := quantity,
    shouldOrder := shouldOrder.getD false,
    lastOrderDate := none }

/-- Items-list computation of `handleProductUpdate` (InventoryScreen.tsx
lines 74-92): replace the first item whose productId matches, or append. -/
def upsertItems (items : List InventoryItem) (newItem : InventoryItem)
    (productId : String) : List InventoryItem :=
  match items.findIdx? (fun item => item.productId == productId) with
  | some existingItemIndex => items.set existingItemIndex newItem
  | none => items ++ [newItem]

/-- `handleProductUpdate` (InventoryScreen.tsx lines 71-100) restricted to
the session it produces: replace the first item with the given productId,
or append a new one, then hand the updated session to UPDATE_SESSION. -/
def handleProductUpdate (session : InventorySession) (productId : String)
    (quantity : Option Nat) (shouldOrder : Option Bool) : InventorySession :=
  let newItem := newInventoryItem session productId quantity shouldOrder
  { session with items := upsertItems session.items newItem productId }

/-- The auto-order evaluation of ProductCard.tsx (lines 41-52): the
location threshold is `productLocation?.minThreshold || 0`, and the effect
hook forces `shouldOrder` to true when a quantity-tracked product's
quantity is below that threshold, leaving it unchanged otherwise. -/
def evaluateAutoOrder (product : Product) (locationId : String)
    (quantity : Nat) (shouldOrder : Bool) : Bool :=
  let minThreshold :=
    match product.locations.find? (fun loc => loc.locationId == locationId) with
    | some productLocation => productLocation.minThreshold.getD 0
    | none => 0
  if product.requiresQuantity && decide (quantity < minThreshold) then true
  else shouldOrder

/-- One line of the order summary email (types.ts `OrderSummary.items`). -/
structure OrderSummaryItem where
  productName : String
  quantity : Option Nat
  suppliers : List String
deriving DecidableEq

/-- `OrderSummary` from src/types.ts. -/
structure OrderSummary where
  sessionId : String
  locationName : String
  userName : String
  orderDate : String
  items : List OrderSummaryItem
deriving DecidableEq

/-- Supplier display names resolved for a product at submission time
(InventoryScreen.tsx lines 163-165 and 185-187), with the
`['Unknown Supplier']` fallback applied where the source applies it. -/
def resolveSuppliers (st : AppState) (productId : String) : List String :=
  let names :=
    match st.products.find? (fun p => p.id == productId) with
    | some product =>
      (st.suppliers.filter (fun s => product.suppliers.contains s.id)).map
        (fun s => s.name)
    | none => []
  if names.length > 0 then names else ["Unknown Supplier"]

/-- The order summary built by `handleSubmitOrder`
(InventoryScreen.tsx lines 156-173). -/
def buildOrderSummary (st : AppState) (cs : InventorySession) (loc : Location)
    (orderDateFormatted : String) (itemsToOrder : List InventoryItem) :
    OrderSummary :=
  { sessionId := cs.id,
    locationName := loc.name,
    userName := cs.userName,
    orderDate := orderDateFormatted,
    items := itemsToOrder.map (fun item =>
      { productName :=
          match st.products.find? (fun p => p.id == item.productId) with
          | some product => if product.name == "" then "Unknown Product" else product.name
          | none => "Unknown Product",
        quantity := item.currentQuantity,
        suppliers := resolveSuppliers st item.productId }) }

/-- The order-history rows built by `handleSubmitOrder`
(InventoryScreen.tsx lines 183-198). -/
def buildOrderHistoryItems (st : AppState) (cs : InventorySession)
    (orderDateIso : String) (itemsToOrder : List InventoryItem) :
    List OrderHistoryItem :=
  itemsToOrder.map (fun item =>
    { productId := item.productId,
      locationId := item.locationId,
      orderDate := orderDateIso,
      quantityOrdered := item.currentQuantity,
      sessionId := cs.id,
      suppliers := resolveSuppliers st item.productId,
      categoryIds :=
        match st.products.find? (fun p => p.id == item.productId) with
        | some product => product.categories
        | none => [] })

/-- The EmailJS configuration read from localStorage by the submit path
together with the notification sender outcome for this attempt. -/
structure SubmitEnv where
  emailServiceId : Option String
  emailTemplateId : Option String
  emailPublicKey : Option String
  emailSendOk : Bool
deriving DecidableEq

/-- Outcome of one `handleSubmitOrder` attempt: the store state after the
dispatches the attempt performed, the error message it set (if any), and
whether it reached the success branch. -/
structure SubmitResult where
  newState : AppState
  submitError : Option String
  submitSuccess : Bool
deriving DecidableEq

/-- `handleSubmitOrder` (InventoryScreen.tsx lines 119-225).  The steps, in
source order: guard on a current session and its location; reject when no
item is marked for ordering; reject when EmailJS is unconfigured; build the
order summary and send the email — a failed send throws into the catch
block, which records the generic failure message; only after a successful
send dispatch ADD_ORDER_HISTORY_ITEMS followed by UPDATE_SESSION with the
submitted session. -/
def handleSubmitOrder (st : AppState) (env : SubmitEnv) (orderDateIso : String)
    (orderDateFormatted : String) : SubmitResult :=
  match st.currentSession with
  | none => { newState := st, submitError := none, submitSuccess := false }
  | some cs =>
    match st.locations.find? (fun loc => loc.id == cs.locationId) with
    | none => { newState := st, submitError := none, submitSuccess := false }
    | some currentLocation =>
      let itemsToOrder := cs.items.filter (fun item => item.shouldOrder)
      if itemsToOrder.length == 0 then
        { newState := st, submitError := some "No items marked for ordering",
          submitSuccess := false }
      else if !(truthy env.emailServiceId) || !(truthy env.emailTemplateId) ||
          !(truthy env.emailPublicKey) then
        { newState := st,
          submitError :=
            some "EmailJS not configured. Please configure it in Settings first.",
          submitSuccess := false }
      else
        let _orderSummary :=
          buildOrderSummary st cs currentLocation orderDateFormatted itemsToOrder
        if !env.emailSendOk then
          { newState := st,
            submitError :=
              some "Failed to submit order. Please check your email configuration in Settings.",
            submitSuccess := false }
        else
          let orderHistoryItems :=
            buildOrderHistoryItems st cs orderDateIso itemsToOrder
          let st1 := appReducer st (.addOrderHistoryItems orderHistoryItems)
          let submittedSession :=
            { cs with endDate := some orderDateIso, isSubmitted := true }
          let st2 := appReducer st1 (.updateSession submittedSession)
          { newState := st2, submitError := none, submitSuccess := true }

/-- The currentSession/sessions consistency invariant of the data model:
whenever currentSession is set and an entity with its id is in the sessions
collection, the two are value-identical. -/
def currentSessionConsistent (st : AppState) : Bool :=
  match st.currentSession with
  | none => true
  | some cs => st.sessions.all (fun s => !(s.id == cs.id) || decide (s = cs))

/-- Fixture location for concrete evaluations. -/
def wLocation : Location :=
  { id := "l1", name := "Main Location", address := some "123 Main St" }

/-- Fixture category. -/
def wCategory : Category := { id := "c1", name := "Milks", color := some "#E3F2FD" }

/-- Fixture supplier. -/
def wSupplier : Supplier := { id := "v1", name := "Costco" }

/-- Fixture quantity-tracked product available at the fixture location. -/
def wProduct : Product :=
  { id := "p1", name := "Whole Milk", categories := ["c1"], suppliers := ["v1"],
    locations := [{ locationId := "l1", minThreshold := some 5, isAvailable := true }],
    requiresQuantity := true }

/-- Fixture inventory item marked for ordering. -/
def wItem : InventoryItem :=
  { productId := "p1", locationId := "l1", currentQuantity := some 2,
    shouldOrder := true, lastOrderDate := none }

/-- Fixture draft session holding the fixture item. -/
def wSession : InventorySession :=
  { id := "s1", locationId := "l1", userName := "Ana",
    startDate := "2025-01-01T08:00:00Z", endDate := none,
    items := [wItem], isSubmitted := false }

/-- Fixture store state whose current session is the fixture draft. -/
def wState : AppState :=
  { locations := [wLocation], categories := [wCategory], suppliers := [wSupplier],
    products := [wProduct], sessions := [wSession], orderHistory := [],
    currentSession := some wSession }

/-- Fixture tombstone ledger with one deletion of each kind. -/
def wLedger : Ledger :=
  { deletedSessions := ["sdel"],
    deletedSessionsTs := [{ entityId := "sdel", timestamp := 100 }],
    deletedCategories := ["cdel"],
    deletedCategoriesTs := [{ entityId := "cdel", timestamp := 100 }],
    deletedProducts := ["pdel"],
    deletedProductsTs := [{ entityId := "pdel", timestamp := 100 }] }

/-- Fixture remote dataset that still contains every tombstoned entity. -/
def wRemote : RemoteData :=
  { locations := [wLocation],
    categories := [wCategory, { id := "cdel", name := "Old", color := none }],
    suppliers := [wSupplier],
    products := [wProduct,
      { id := "pdel", name := "Gone", categories := [], suppliers := [],
        locations := [], requiresQuantity := false }],
    sessions := [wSession,
      { id := "sdel", locationId := "l1", userName := "Bob",
        startDate := "2024-01-01T08:00:00Z", endDate := none, items := [],
        isSubmitted := true }],
    orderHistory := [] }

/-- Fixture configuration with Supabase credentials present. -/
def wConfig : Config :=
  { supabaseUrl := some "https://example.supabase.co",
    supabaseKey := some "anon-key",
    emailServiceId := none, emailTemplateId := none, emailPublicKey := none }

/-- Fixture gateway where every remote operation succeeds. -/
def wGateway : Gateway :=
  { initializeOk := true, testConnection := Except.ok true,
    upsertLocation := fun _ => Except.ok (),
    upsertCategory := fun _ => Except.ok (),
    upsertSupplier := fun _ => Except.ok (),
    upsertProduct := fun _ => Except.ok (),
    upsertSession := fun _ => Except.ok (),
    addOrderHistoryItems := fun _ => Except.ok (),
    upsertAppSetting := fun _ _ => Except.ok (),
    syncFromDatabase := Except.ok wRemote,
    getAppSettings :=
      Except.ok { emailServiceId := none, emailTemplateId := none,
                  emailPublicKey := none } }

/-- Fixture gateway whose pull step throws. -/
def wGatewayFail : Gateway :=
  { wGateway with syncFromDatabase := Except.error "network unreachable" }

/-- Fixture item not marked for ordering. -/
def wItemNoOrder : InventoryItem :=
  { productId := "p1", locationId := "l1", currentQuantity := some 9,
    shouldOrder := false, lastOrderDate := none }

/-- Fixture draft session none of whose items is marked for ordering. -/
def wSessionNoOrder : InventorySession :=
  { wSession with id := "s2", items := [wItemNoOrder] }

/-- Fixture store state whose current session has nothing to order. -/
def wStateNoOrder : AppState :=
  { wState with
    sessions := [wSessionNoOrder],
    currentSession := some wSessionNoOrder }

/-- Fixture submit environment: EmailJS configured, notification send
failing. -/
def wSubmitEnv : SubmitEnv :=
  { emailServiceId := some "service-1", emailTemplateId := some "template-1",
    emailPublicKey := some "key-1", emailSendOk := false }

/-!
Helper lemmas shared by several claim theorems.
-/

theorem publishFiltered_sessions (st : AppState) (led : Ledger)
    (data : RemoteData) :
    (publishFiltered st led data).sessions =
      data.sessions.filter (fun session =>
        !(led.deletedSessions.contains session.id)) := rfl

theorem publishFiltered_categories (st : AppState) (led : Ledger)
    (data : RemoteData) :
    (publishFiltered st led data).categories =
      data.categories.filter (fun category =>
        !(led.deletedCategories.contains category.id)) := rfl

theorem publishFiltered_products (st : AppState) (led : Ledger)
    (data : RemoteData) :
    (publishFiltered st led data).products =
      data.products.filter (fun product =>
        !(led.deletedProducts.contains product.id)) := rfl

/-- Case analysis of a pull-first sync run: either some step threw — the
error flag carries the message and both the store state and the ledger are
untouched — or everything succeeded and the store holds the filtered pull
result, the ledger untouched. -/
theorem sync_pullFirst_cases (cfg : Config) (st : AppState) (led : Ledger)
    (now : Int) (gw : Gateway) :
    (∃ e, (syncWithSupabase true cfg st led now gw).error = some e ∧
      (syncWithSupabase true cfg st led now gw).newState = st ∧
      (syncWithSupabase true cfg st led now gw).newLedger = led) ∨
    ((syncWithSupabase true cfg st led now gw).error = none ∧
      ∃ data, gw.syncFromDatabase = Except.ok data ∧
        (syncWithSupabase true cfg st led now gw).newState =
          publishFiltered st led data ∧
        (syncWithSupabase true cfg st led now gw).newLedger = led) := by
  unfold syncWithSupabase
  by_cases hcred : (!(truthy cfg.supabaseUrl) || !(truthy cfg.supabaseKey)) = true
  · rw [if_pos hcred]
    exact Or.inl ⟨_, rfl, rfl, rfl⟩
  · rw [if_neg hcred]
    by_cases hinit : (!gw.initializeOk) = true
    · rw [if_pos hinit]
      exact Or.inl ⟨_, rfl, rfl, rfl⟩
    · rw [if_neg hinit]
      rcases htc : gw.testConnection with e | b
      · exact Or.inl ⟨_, rfl, rfl, rfl⟩
      · cases b
        · exact Or.inl ⟨_, rfl, rfl, rfl⟩
        · rcases hdb : gw.syncFromDatabase with e | data
          · exact Or.inl ⟨_, rfl, rfl, rfl⟩
          · rcases hset : gw.getAppSettings with e | settings
            · exact Or.inl ⟨_, rfl, rfl, rfl⟩
            · exact Or.inr ⟨rfl, data, rfl, rfl, rfl⟩

/-- Case analysis of a push-then-pull sync run: either some step threw —
error flag set, store state and ledger untouched — or everything succeeded,
the store holds the filtered pull result and the ledger was pruned. -/
theorem sync_pushPull_cases (cfg : Config) (st : AppState) (led : Ledger)
    (now : Int) (gw : Gateway) :
    (∃ e, (syncWithSupabase false cfg st led now gw).error = some e ∧
      (syncWithSupabase false cfg st led now gw).newState = st ∧
      (syncWithSupabase false cfg st led now gw).newLedger = led) ∨
    ((syncWithSupabase false cfg st led now gw).error = none ∧
      ∃ data, gw.syncFromDatabase = Except.ok data ∧
        (syncWithSupabase false cfg st led now gw).newState =
          publishFiltered st led data ∧
        (syncWithSupabase false cfg st led now gw).newLedger =
          pruneLedger led now) := by
  unfold syncWithSupabase
  by_cases hcred : (!(truthy cfg.supabaseUrl) || !(truthy cfg.supabaseKey)) = true
  · rw [if_pos hcred]
    exact Or.inl ⟨_, rfl, rfl, rfl⟩
  · rw [if_neg hcred]
    by_cases hinit : (!gw.initializeOk) = true
    · rw [if_pos hinit]
      exact Or.inl ⟨_, rfl, rfl, rfl⟩
    · rw [if_neg hinit]
      rcases htc : gw.testConnection with e | b
      · exact Or.inl ⟨_, rfl, rfl, rfl⟩
      · cases b
        · exact Or.inl ⟨_, rfl, rfl, rfl⟩
        · rcases hp : (pushPhase cfg st gw).1 with e | u
          · exact Or.inl ⟨_, rfl, rfl, rfl⟩
          · rcases hdb : gw.syncFromDatabase with e | data
            · exact Or.inl ⟨_, rfl, rfl, rfl⟩
            · rcases hset : gw.getAppSettings with e | settings
              · exact Or.inl ⟨_, rfl, rfl, rfl⟩
              · exact Or.inr ⟨rfl, data, rfl, rfl, rfl⟩

/-- A reconcile run in either mode that did not fail publishes exactly the
tombstone-filtered pull result. -/
theorem sync_success_publishes (forcePullFirst : Bool) (cfg : Config)
    (st : AppState) (led : Ledger) (now : Int) (gw : Gateway)
    (hok : (syncWithSupabase forcePullFirst cfg st led now gw).error = none) :
    ∃ data, gw.syncFromDatabase = Except.ok data ∧
      (syncWithSupabase forcePullFirst cfg st led now gw).newState =
        publishFiltered st led data := by
  cases forcePullFirst
  · rcases sync_pushPull_cases cfg st led now gw with
      ⟨e, he, _, _⟩ | ⟨_, data, hdb, hst, _⟩
    · rw [he] at hok
      exact absurd hok (by simp)
    · exact ⟨data, hdb, hst⟩
  · rcases sync_pullFirst_cases cfg st led now gw with
      ⟨e, he, _, _⟩ | ⟨_, data, hdb, hst, _⟩
    · rw [he] at hok
      exact absurd hok (by simp)
    · exact ⟨data, hdb, hst⟩

/-!
The claim theorems.
-/

/-- C1: for every id recorded in the deleted-sessions, deleted-categories
or deleted-products tombstone set, a reconcile() call in either mode that
publishes (its error flag is clear) produces a store whose sessions,
categories and products collections contain no entity with that id, no
matter what the remote fetch returned. -/
theorem reconcile_tombstone_exclusion (forcePullFirst : Bool) (cfg : Config)
    (st : AppState) (led : Ledger) (now : Int) (gw : Gateway) (eid : String)
    (hok : (syncWithSupabase forcePullFirst cfg st led now gw).error = none) :
    (led.deletedSessions.contains eid = true →
      ∀ s ∈ (syncWithSupabase forcePullFirst cfg st led now gw).newState.sessions,
        s.id ≠ eid) ∧
    (led.deletedCategories.contains eid = true →
      ∀ c ∈ (syncWithSupabase forcePullFirst cfg st led now gw).newState.categories,
        c.id ≠ eid) ∧
    (led.deletedProducts.contains eid = true →
      ∀ p ∈ (syncWithSupabase forcePullFirst cfg st led now gw).newState.products,
        p.id ≠ eid) := by
  obtain ⟨data, _, hst⟩ :=
    sync_success_publishes forcePullFirst cfg st led now gw hok
  refine ⟨?_, ?_, ?_⟩
  · intro hdel s hs heq
    rw [hst, publishFiltered_sessions] at hs
    have hpred := (List.mem_filter.mp hs).2
    rw [heq, hdel] at hpred
    simp at hpred
  · intro hdel c hc heq
    rw [hst, publishFiltered_categories] at hc
    have hpred := (List.mem_filter.mp hc).2
    rw [heq, hdel] at hpred
    simp at hpred
  · intro hdel p hp heq
    rw [hst, publishFiltered_products] at hp
    have hpred := (List.mem_filter.mp hp).2
    rw [heq, hdel] at hpred
    simp at hpred

/-- Witness for C1: a concrete successful push-then-pull run whose remote
result contains the tombstoned session id, which the published store
excludes. -/
theorem reconcile_tombstone_exclusion_witness :
    (wLedger.deletedSessions.contains "sdel" = true →
      ∀ s ∈ (syncWithSupabase false wConfig wState wLedger 1000 wGateway).newState.sessions,
        s.id ≠ "sdel") ∧
    (wLedger.deletedCategories.contains "sdel" = true →
      ∀ c ∈ (syncWithSupabase false wConfig wState wLedger 1000 wGateway).newState.categories,
        c.id ≠ "sdel") ∧
    (wLedger.deletedProducts.contains "sdel" = true →
      ∀ p ∈ (syncWithSupabase false wConfig wState wLedger 1000 wGateway).newState.products,
        p.id ≠ "sdel") :=
  reconcile_tombstone_exclusion false wConfig wState wLedger 1000 wGateway "sdel"
    (by decide)

/-- C2: when SET_SESSIONS publishes a session list while a current session
is set, the current session stays value-identical if no entry of the list
carries its id, and becomes exactly the list entry carrying its id
otherwise. -/
theorem setSessions_preserves_or_adopts_currentSession (st : AppState)
    (payload : List InventorySession) (cs : InventorySession)
    (hcs : st.currentSession = some cs) :
    ((∀ s ∈ payload, s.id ≠ cs.id) →
      (appReducer st (.setSessions payload)).currentSession = some cs) ∧
    (∀ s, payload.find? (fun x => x.id == cs.id) = some s →
      (appReducer st (.setSessions payload)).currentSession = some s) := by
  constructor
  · intro habs
    have hfind : payload.find? (fun x => x.id == cs.id) = none := by
      apply List.find?_eq_none.mpr
      intro x hx
      simp [habs x hx]
    simp [appReducer, hcs, hfind]
  · intro s hfind
    simp [appReducer, hcs, hfind]

/-- Witness for C2: publishing a session list without the current session's
id preserves the current session unchanged. -/
theorem setSessions_preserves_or_adopts_currentSession_witness :
    ((∀ s ∈ ([] : List InventorySession), s.id ≠ wSession.id) →
      (appReducer wState (.setSessions [])).currentSession = some wSession) ∧
    (∀ s, ([] : List InventorySession).find? (fun x => x.id == wSession.id) = some s →
      (appReducer wState (.setSessions [])).currentSession = some s) :=
  setSessions_preserves_or_adopts_currentSession wState [] wSession rfl

/-- C3: with an active draft session (currentSession set and isSubmitted
false) the periodic tick, the window-focus handler and the auto-sync
function itself are complete no-ops: the store state and the ledger are
unchanged and no Remote Data Gateway method is invoked. -/
theorem autoSync_skipped_for_active_draft (cfg : Config) (st : AppState)
    (led : Ledger) (now : Int) (gw : Gateway) (cs : InventorySession)
    (hcs : st.currentSession = some cs) (hdraft : cs.isSubmitted = false) :
    periodicSyncTick cfg st led now gw =
      { success := false, newState := st, newLedger := led, calls := [] } ∧
    handleWindowFocus cfg st led now gw =
      { success := false, newState := st, newLedger := led, calls := [] } ∧
    autoSyncWithSupabase cfg st led now gw =
      { success := false, newState := st, newLedger := led, calls := [] } := by
  have hauto : autoSyncWithSupabase cfg st led now gw =
      { success := false, newState := st, newLedger := led, calls := [] } := by
    unfold autoSyncWithSupabase
    rw [hcs]
    split
    · rfl
    · simp [hdraft]
  refine ⟨?_, ?_, hauto⟩
  · unfold periodicSyncTick
    rw [hcs]
    simp [hdraft]
  · unfold handleWindowFocus
    rw [hcs]
    simp [hdraft]

/-- Witness for C3: the fixture state holds an unsubmitted draft, so both
triggers and the auto-sync skip entirely. -/
theorem autoSync_skipped_for_active_draft_witness :
    periodicSyncTick wConfig wState wLedger 1000 wGateway =
      { success := false, newState := wState, newLedger := wLedger, calls := [] } ∧
    handleWindowFocus wConfig wState wLedger 1000 wGateway =
      { success := false, newState := wState, newLedger := wLedger, calls := [] } ∧
    autoSyncWithSupabase wConfig wState wLedger 1000 wGateway =
      { success := false, newState := wState, newLedger := wLedger, calls := [] } :=
  autoSync_skipped_for_active_draft wConfig wState wLedger 1000 wGateway wSession
    rfl rfl

/-- C4: a thrown exception anywhere in the fetch/push work of reconcile()
is caught inside it — if the run finished with the error flag set, every
store collection and the tombstone ledger are exactly as before the call;
and a failing fetch step always sets the error flag. -/
theorem sync_failure_preserves_state (forcePullFirst : Bool) (cfg : Config)
    (st : AppState) (led : Ledger) (now : Int) (gw : Gateway) :
    ((syncWithSupabase forcePullFirst cfg st led now gw).error ≠ none →
      (syncWithSupabase forcePullFirst cfg st led now gw).newState = st ∧
      (syncWithSupabase forcePullFirst cfg st led now gw).newLedger = led) ∧
    (∀ e, gw.syncFromDatabase = Except.error e →
      (syncWithSupabase forcePullFirst cfg st led now gw).error ≠ none) := by
  cases forcePullFirst
  · rcases sync_pushPull_cases cfg st led now gw with
      ⟨e, he, hst, hld⟩ | ⟨hok, data, hdb, hst, hld⟩
    · refine ⟨fun _ => ⟨hst, hld⟩, fun e2 _ => ?_⟩
      rw [he]
      simp
    · refine ⟨fun h => absurd hok h, fun e2 hdb2 => ?_⟩
      rw [hdb2] at hdb
      simp at hdb
  · rcases sync_pullFirst_cases cfg st led now gw with
      ⟨e, he, hst, hld⟩ | ⟨hok, data, hdb, hst, hld⟩
    · refine ⟨fun _ => ⟨hst, hld⟩, fun e2 _ => ?_⟩
      rw [he]
      simp
    · refine ⟨fun h => absurd hok h, fun e2 hdb2 => ?_⟩
      rw [hdb2] at hdb
      simp at hdb

/-- Witness for C4: a push-then-pull run against a gateway whose pull
throws leaves the fixture state and ledger untouched. -/
theorem sync_failure_preserves_state_witness :
    (syncWithSupabase false wConfig wState wLedger 1000 wGatewayFail).newState =
      wState ∧
    (syncWithSupabase false wConfig wState wLedger 1000 wGatewayFail).newLedger =
      wLedger :=
  (sync_failure_preserves_state false wConfig wState wLedger 1000 wGatewayFail).1
    (by decide)

/-- C10: the retention sweep runs exactly at the end of a successful
push-then-pull reconcile and nowhere else: on success each timestamped
tombstone ledger keeps exactly the entries newer than 30 days before now
and each simple id list is rebuilt from the survivors; a failed
push-then-pull run and a pull-first run leave the ledger untouched. -/
theorem tombstone_pruning_only_on_successful_pushPull (cfg : Config)
    (st : AppState) (led : Ledger) (now : Int) (gw : Gateway) :
    ((syncWithSupabase false cfg st led now gw).error = none →
      ((syncWithSupabase false cfg st led now gw).newLedger.deletedSessionsTs =
        led.deletedSessionsTs.filter (fun entry =>
          decide (now - 30 * 24 * 60 * 60 * 1000 < entry.timestamp)) ∧
       (syncWithSupabase false cfg st led now gw).newLedger.deletedSessions =
        (led.deletedSessionsTs.filter (fun entry =>
          decide (now - 30 * 24 * 60 * 60 * 1000 < entry.timestamp))).map
          (fun entry => entry.entityId) ∧
       (syncWithSupabase false cfg st led now gw).newLedger.deletedCategoriesTs =
        led.deletedCategoriesTs.filter (fun entry =>
          decide (now - 30 * 24 * 60 * 60 * 1000 < entry.timestamp)) ∧
       (syncWithSupabase false cfg st led now gw).newLedger.deletedCategories =
        (led.deletedCategoriesTs.filter (fun entry =>
          decide (now - 30 * 24 * 60 * 60 * 1000 < entry.timestamp))).map
          (fun entry => entry.entityId) ∧
       (syncWithSupabase false cfg st led now gw).newLedger.deletedProductsTs =
        led.deletedProductsTs.filter (fun entry =>
          decide (now - 30 * 24 * 60 * 60 * 1000 < entry.timestamp)) ∧
       (syncWithSupabase false cfg st led now gw).newLedger.deletedProducts =
        (led.deletedProductsTs.filter (fun entry =>
          decide (now - 30 * 24 * 60 * 60 * 1000 < entry.timestamp))).map
          (fun entry => entry.entityId))) ∧
    ((syncWithSupabase false cfg st led now gw).error ≠ none →
      (syncWithSupabase false cfg st led now gw).newLedger = led) ∧
    (syncWithSupabase true cfg st led now gw).newLedger = led := by
  refine ⟨?_, ?_, ?_⟩
  · intro hok
    rcases sync_pushPull_cases cfg st led now gw with
      ⟨e, he, _, _⟩ | ⟨_, data, hdb, _, hld⟩
    · rw [he] at hok
      exact absurd hok (by simp)
    · rw [hld]
      exact ⟨rfl, rfl, rfl, rfl, rfl, rfl⟩
  · intro herr
    rcases sync_pushPull_cases cfg st led now gw with
      ⟨e, he, _, hld⟩ | ⟨hok, _, _, _, _⟩
    · exact hld
    · exact absurd hok herr
  · rcases sync_pullFirst_cases cfg st led now gw with
      ⟨e, he, _, hld⟩ | ⟨_, _, _, _, hld⟩
    · exact hld
    · exact hld

/-- Witness for C10: a successful push-then-pull run at a time that makes
the fixture tombstones stale prunes all three ledgers, in both list
representations. -/
theorem tombstone_pruning_only_on_successful_pushPull_witness :
    (syncWithSupabase false wConfig wState wLedger 2592000999 wGateway).newLedger.deletedSessionsTs =
      wLedger.deletedSessionsTs.filter (fun entry =>
        decide ((2592000999 : Int) - 30 * 24 * 60 * 60 * 1000 < entry.timestamp)) ∧
    (syncWithSupabase false wConfig wState wLedger 2592000999 wGateway).newLedger.deletedSessions =
      (wLedger.deletedSessionsTs.filter (fun entry =>
        decide ((2592000999 : Int) - 30 * 24 * 60 * 60 * 1000 < entry.timestamp))).map
        (fun entry => entry.entityId) ∧
    (syncWithSupabase false wConfig wState wLedger 2592000999 wGateway).newLedger.deletedCategoriesTs =
      wLedger.deletedCategoriesTs.filter (fun entry =>
        decide ((2592000999 : Int) - 30 * 24 * 60 * 60 * 1000 < entry.timestamp)) ∧
    (syncWithSupabase false wConfig wState wLedger 2592000999 wGateway).newLedger.deletedCategories =
      (wLedger.deletedCategoriesTs.filter (fun entry =>
        decide ((2592000999 : Int) - 30 * 24 * 60 * 60 * 1000 < entry.timestamp))).map
        (fun entry => entry.entityId) ∧
    (syncWithSupabase false wConfig wState wLedger 2592000999 wGateway).newLedger.deletedProductsTs =
      wLedger.deletedProductsTs.filter (fun entry =>
        decide ((2592000999 : Int) - 30 * 24 * 60 * 60 * 1000 < entry.timestamp)) ∧
    (syncWithSupabase false wConfig wState wLedger 2592000999 wGateway).newLedger.deletedProducts =
      (wLedger.deletedProductsTs.filter (fun entry =>
        decide ((2592000999 : Int) - 30 * 24 * 60 * 60 * 1000 < entry.timestamp))).map
        (fun entry => entry.entityId) :=
  (tombstone_pruning_only_on_successful_pushPull wConfig wState wLedger
    2592000999 wGateway).1 (by decide)

/-- The current session produced by UPDATE_SESSION: the payload when the
ids match, the previous current session otherwise. -/
theorem updateSession_currentSession (st : AppState)
    (payload : InventorySession) :
    (appReducer st (.updateSession payload)).currentSession =
      match st.currentSession with
      | some cs => if cs.id == payload.id then some payload else some cs
      | none => none := rfl

/-- Membership in the sessions list produced by UPDATE_SESSION: every entry
is the payload or an untouched original whose id differs from the
payload's. -/
theorem mem_updateSession_sessions {st : AppState}
    {payload s : InventorySession}
    (hs : s ∈ (appReducer st (.updateSession payload)).sessions) :
    s = payload ∨ (s ∈ st.sessions ∧ (s.id == payload.id) = false) := by
  unfold appReducer at hs
  simp only at hs
  split at hs
  · rcases List.mem_append.mp hs with hp | hp
    · rcases List.mem_map.mp hp with ⟨t, ht, heq⟩
      by_cases h2 : (t.id == payload.id) = true
      · rw [if_pos h2] at heq
        exact Or.inl heq.symm
      · rw [if_neg h2] at heq
        rw [← heq]
        exact Or.inr ⟨ht, by simpa using h2⟩
    · exact Or.inl (by simpa using hp)
  · rcases List.mem_map.mp hs with ⟨t, ht, heq⟩
    by_cases h2 : (t.id == payload.id) = true
    · rw [if_pos h2] at heq
      exact Or.inl heq.symm
    · rw [if_neg h2] at heq
      rw [← heq]
      exact Or.inr ⟨ht, by simpa using h2⟩

/-- Counterexample state for C5: the draft session is the current session
and also sits in the sessions collection, and it carries an item for the
product about to be deleted. -/
def c5State : AppState :=
  { locations := [wLocation], categories := [], suppliers := [],
    products := [wProduct], sessions := [wSession], orderHistory := [],
    currentSession := some wSession }

/-- Counterexample for C5: DELETE_PRODUCT strips the deleted product's item
from currentSession but leaves the matching sessions entry untouched, so
the value-identity invariant fails right after that mutation. -/
theorem deleteProduct_breaks_consistency :
    currentSessionConsistent c5State = true ∧
    currentSessionConsistent (appReducer c5State (.deleteProduct "p1")) = false := by
  decide

/-- C5 (amended): UPDATE_SESSION keeps the currentSession/sessions
value-identity invariant — every store satisfying it still satisfies it
after the mutation; DELETE_PRODUCT does not (see the counterexample). -/
theorem updateSession_keeps_consistency (st : AppState)
    (payload : InventorySession)
    (h : currentSessionConsistent st = true) :
    currentSessionConsistent (appReducer st (.updateSession payload)) = true := by
  cases hcs : st.currentSession with
  | none =>
    unfold currentSessionConsistent
    rw [updateSession_currentSession, hcs]
  | some cs =>
    unfold currentSessionConsistent at h
    rw [hcs] at h
    have hall : st.sessions.all
        (fun s => !(s.id == cs.id) || decide (s = cs)) = true := h
    rw [List.all_eq_true] at hall
    unfold currentSessionConsistent
    rw [updateSession_currentSession, hcs]
    by_cases hid : (cs.id == payload.id) = true
    · simp only [hid, reduceIte]
      show (appReducer st (.updateSession payload)).sessions.all
        (fun s => !(s.id == payload.id) || decide (s = payload)) = true
      rw [List.all_eq_true]
      intro s hs
      rcases mem_updateSession_sessions hs with heq | ⟨_, hne⟩
      · simp [heq]
      · simp [hne]
    · have hidf : (cs.id == payload.id) = false := by
        simpa using hid
      simp only [hidf, reduceIte]
      show (appReducer st (.updateSession payload)).sessions.all
        (fun s => !(s.id == cs.id) || decide (s = cs)) = true
      rw [List.all_eq_true]
      intro s hs
      rcases mem_updateSession_sessions hs with heq | ⟨hmem, _⟩
      · have hne2 : (payload.id == cs.id) = false := by
          have hne3 : ¬(payload.id = cs.id) := by
            intro he
            exact hid (by simp [he])
          simpa using hne3
        simp [heq, hne2]
      · exact hall s hmem

/-- Witness for the amended C5: applying UPDATE_SESSION to the fixture
store keeps the invariant. -/
theorem updateSession_keeps_consistency_witness :
    currentSessionConsistent (appReducer wState (.updateSession wSession)) = true :=
  updateSession_keeps_consistency wState wSession (by decide)

/-- Upserting into the empty items list appends the new item. -/
theorem upsertItems_nil (newItem : InventoryItem) (pid : String) :
    upsertItems [] newItem pid = [newItem] := rfl

/-- Upserting when the head item matches replaces the head. -/
theorem upsertItems_cons_hit (x : InventoryItem) (xs : List InventoryItem)
    (newItem : InventoryItem) (pid : String)
    (hx : (x.productId == pid) = true) :
    upsertItems (x :: xs) newItem pid = newItem :: xs := by
  unfold upsertItems
  rw [List.findIdx?_cons, hx]
  simp

/-- Upserting when the head item does not match keeps the head and recurses
into the tail. -/
theorem upsertItems_cons_miss (x : InventoryItem) (xs : List InventoryItem)
    (newItem : InventoryItem) (pid : String)
    (hx : (x.productId == pid) = false) :
    upsertItems (x :: xs) newItem pid = x :: upsertItems xs newItem pid := by
  unfold upsertItems
  rw [List.findIdx?_cons, hx]
  cases hfi : xs.findIdx? (fun item => item.productId == pid) with
  | none => simp [hfi]
  | some i => simp [hfi, List.set_cons_succ]

/-- One upsert into a duplicate-free items list leaves exactly one item for
the productId — the new item — and all other items unchanged in order. -/
theorem upsertItems_spec (items : List InventoryItem)
    (newItem : InventoryItem) (pid : String)
    (hpid : newItem.productId = pid)
    (hdup : items.countP (fun it => it.productId == pid) ≤ 1) :
    (upsertItems items newItem pid).countP (fun it => it.productId == pid) = 1 ∧
    (∀ it ∈ upsertItems items newItem pid, it.productId = pid → it = newItem) ∧
    (upsertItems items newItem pid).filter (fun it => !(it.productId == pid)) =
      items.filter (fun it => !(it.productId == pid)) := by
  induction items with
  | nil =>
    refine ⟨?_, ?_, ?_⟩
    · simp [upsertItems_nil, hpid]
    · intro it hit _
      rw [upsertItems_nil] at hit
      simpa using hit
    · simp [upsertItems_nil, hpid]
  | cons x xs ih =>
    by_cases hx : (x.productId == pid) = true
    · rw [upsertItems_cons_hit x xs newItem pid hx]
      have hzero : xs.countP (fun it => it.productId == pid) = 0 := by
        rw [List.countP_cons_of_pos (fun it => it.productId == pid) xs hx] at hdup
        omega
      refine ⟨?_, ?_, ?_⟩
      · rw [List.countP_cons_of_pos (fun it => it.productId == pid) xs
          (by simp [hpid])]
        omega
      · intro it hit hp
        rcases List.mem_cons.mp hit with heq | hmem
        · exact heq
        · exfalso
          have hcontra := List.countP_eq_zero.mp hzero it hmem
          simp [hp] at hcontra
      · rw [List.filter_cons_of_neg (by simp [hpid]),
            List.filter_cons_of_neg (by simp [hx])]
    · have hxf : (x.productId == pid) = false := by
        simpa using hx
      rw [upsertItems_cons_miss x xs newItem pid hxf]
      have hdup2 : xs.countP (fun it => it.productId == pid) ≤ 1 := by
        rw [List.countP_cons_of_neg] at hdup
        · exact hdup
        · simp [hxf]
      obtain ⟨h1, h2, h3⟩ := ih hdup2
      refine ⟨?_, ?_, ?_⟩
      · rw [List.countP_cons_of_neg]
        · exact h1
        · simp [hxf]
      · intro it hit hp
        rcases List.mem_cons.mp hit with heq | hmem
        · refine absurd hp ?_
          rw [heq]
          simpa using hxf
        · exact h2 it hmem hp
      · rw [List.filter_cons_of_pos (by simp [hxf]),
            List.filter_cons_of_pos (by simp [hxf]), h3]

/-- C6: upserting the same productId twice into a session with at most one
item for it leaves exactly one item for that productId, carrying the values
of the second call, with every other item and the list order unchanged. -/
theorem upsertItem_twice_exactly_one (session : InventorySession)
    (pid : String) (q1 q2 : Option Nat) (o1 o2 : Option Bool)
    (hdup : session.items.countP (fun it => it.productId == pid) ≤ 1) :
    (handleProductUpdate (handleProductUpdate session pid q1 o1) pid q2 o2).items.countP
        (fun it => it.productId == pid) = 1 ∧
    (∀ it ∈ (handleProductUpdate (handleProductUpdate session pid q1 o1) pid q2 o2).items,
      it.productId = pid →
        it = { productId := pid, locationId := session.locationId,
               currentQuantity := q2, shouldOrder := o2.getD false,
               lastOrderDate := none }) ∧
    (handleProductUpdate (handleProductUpdate session pid q1 o1) pid q2 o2).items.filter
        (fun it => !(it.productId == pid)) =
      session.items.filter (fun it => !(it.productId == pid)) := by
  obtain ⟨c1, _, f1⟩ :=
    upsertItems_spec session.items (newInventoryItem session pid q1 o1) pid rfl hdup
  obtain ⟨c2, m2, f2⟩ :=
    upsertItems_spec (upsertItems session.items (newInventoryItem session pid q1 o1) pid)
      (newInventoryItem session pid q2 o2) pid rfl (le_of_eq c1)
  refine ⟨c2, ?_, ?_⟩
  · intro it hit hp
    exact m2 it hit hp
  · rw [show (handleProductUpdate (handleProductUpdate session pid q1 o1) pid q2 o2).items =
        upsertItems (upsertItems session.items (newInventoryItem session pid q1 o1) pid)
          (newInventoryItem session pid q2 o2) pid from rfl]
    rw [f2, f1]

/-- Witness for C6: two upserts of product p1 into the fixture session
leave one item with the second call's values. -/
theorem upsertItem_twice_exactly_one_witness :
    (handleProductUpdate (handleProductUpdate wSession "p1" (some 1) (some false)) "p1"
        (some 7) (some true)).items.countP (fun it => it.productId == "p1") = 1 ∧
    (∀ it ∈ (handleProductUpdate (handleProductUpdate wSession "p1" (some 1) (some false)) "p1"
        (some 7) (some true)).items,
      it.productId = "p1" →
        it = { productId := "p1", locationId := wSession.locationId,
               currentQuantity := some 7, shouldOrder := (some true).getD false,
               lastOrderDate := none }) ∧
    (handleProductUpdate (handleProductUpdate wSession "p1" (some 1) (some false)) "p1"
        (some 7) (some true)).items.filter (fun it => !(it.productId == "p1")) =
      wSession.items.filter (fun it => !(it.productId == "p1")) :=
  upsertItem_twice_exactly_one wSession "p1" (some 1) (some 7) (some false) (some true)
    (by decide)

/-- C7: submitting a draft session none of whose items is marked for
ordering fails with the no-items error, mutates nothing in the store (so
the session keeps isSubmitted false, no endDate and its items), and
produces no order-history entry. -/
theorem submit_requires_orderable_items (st : AppState) (env : SubmitEnv)
    (dIso dFmt : String) (cs : InventorySession) (loc : Location)
    (hcs : st.currentSession = some cs)
    (_hdraft : cs.isSubmitted = false)
    (hloc : st.locations.find? (fun l => l.id == cs.locationId) = some loc)
    (hnone : ∀ it ∈ cs.items, it.shouldOrder = false) :
    handleSubmitOrder st env dIso dFmt =
      { newState := st, submitError := some "No items marked for ordering",
        submitSuccess := false } := by
  have hfil : cs.items.filter (fun item => item.shouldOrder) = [] := by
    apply List.filter_eq_nil_iff.mpr
    intro a ha
    simp [hnone a ha]
  unfold handleSubmitOrder
  simp [hcs, hloc, hfil]

/-- Witness for C7: the fixture session with only unchecked items is
rejected and the fixture store is untouched. -/
theorem submit_requires_orderable_items_witness :
    handleSubmitOrder wStateNoOrder wSubmitEnv "2025-01-02T00:00:00Z" "Jan 2, 2025" =
      { newState := wStateNoOrder,
        submitError := some "No items marked for ordering",
        submitSuccess := false } :=
  submit_requires_orderable_items wStateNoOrder wSubmitEnv
    "2025-01-02T00:00:00Z" "Jan 2, 2025" wSessionNoOrder wLocation
    rfl rfl (by decide) (by decide)

/-- C8: on a submit attempt that reaches the notification step, a failing
send leaves the store exactly as it was — the session is not marked
submitted and no order-history entry is added — while a successful send is
followed by the ADD_ORDER_HISTORY_ITEMS and UPDATE_SESSION dispatches. -/
theorem submit_email_failure_preserves (st : AppState) (env : SubmitEnv)
    (dIso dFmt : String) (cs : InventorySession) (loc : Location)
    (hcs : st.currentSession = some cs)
    (hloc : st.locations.find? (fun l => l.id == cs.locationId) = some loc)
    (hitems : cs.items.filter (fun item => item.shouldOrder) ≠ [])
    (hsid : truthy env.emailServiceId = true)
    (htid : truthy env.emailTemplateId = true)
    (hpk : truthy env.emailPublicKey = true) :
    (env.emailSendOk = false →
      handleSubmitOrder st env dIso dFmt =
        { newState := st,
          submitError :=
            some "Failed to submit order. Please check your email configuration in Settings.",
          submitSuccess := false }) ∧
    (env.emailSendOk = true →
      handleSubmitOrder st env dIso dFmt =
        { newState :=
            appReducer
              (appReducer st (.addOrderHistoryItems
                (buildOrderHistoryItems st cs dIso
                  (cs.items.filter (fun item => item.shouldOrder)))))
              (.updateSession
                { cs with endDate := some dIso, isSubmitted := true }),
          submitError := none, submitSuccess := true }) := by
  have hlen : ((cs.items.filter (fun item => item.shouldOrder)).length == 0) = false := by
    simpa [List.length_eq_zero] using hitems
  constructor
  · intro hfail
    unfold handleSubmitOrder
    simp [hcs, hloc, hlen, hsid, htid, hpk, hfail]
  · intro hsend
    unfold handleSubmitOrder
    simp [hcs, hloc, hlen, hsid, htid, hpk, hsend]

/-- Witness for C8: with the fixture draft (one item to order) and a
failing sender, the submit attempt reports the failure and the store is
unchanged. -/
theorem submit_email_failure_preserves_witness :
    handleSubmitOrder wState wSubmitEnv "2025-01-02T00:00:00Z" "Jan 2, 2025" =
      { newState := wState,
        submitError :=
          some "Failed to submit order. Please check your email configuration in Settings.",
        submitSuccess := false } :=
  (submit_email_failure_preserves wState wSubmitEnv
    "2025-01-02T00:00:00Z" "Jan 2, 2025" wSession wLocation
    rfl rfl (by decide) (by decide) (by decide) (by decide)).1 rfl

/-- C9: for a quantity-tracked product whose threshold at the session's
location is m, a quantity strictly below m forces shouldOrder to true; and
the evaluation never forces shouldOrder to false when the user has checked
it, in particular at or above the threshold. -/
theorem evaluateAutoOrder_low_stock (product : Product) (locationId : String)
    (quantity : Nat) (shouldOrder : Bool) (pl : ProductLocation) (m : Nat)
    (hfind : product.locations.find? (fun loc => loc.locationId == locationId) =
      some pl)
    (hm : pl.minThreshold = some m) :
    (product.requiresQuantity = true → quantity < m →
      evaluateAutoOrder product locationId quantity shouldOrder = true) ∧
    (shouldOrder = true →
      evaluateAutoOrder product locationId quantity shouldOrder = true) := by
  constructor
  · intro hq hlt
    unfold evaluateAutoOrder
    simp [hfind, hm, hq, hlt]
  · intro hso
    unfold evaluateAutoOrder
    rw [hso]
    simp

/-- Witness for C9: the fixture product with threshold 5 and quantity 2 at
the fixture location is auto-checked, and a user-checked product stays
checked. -/
theorem evaluateAutoOrder_low_stock_witness :
    (wProduct.requiresQuantity = true → 2 < 5 →
      evaluateAutoOrder wProduct "l1" 2 false = true) ∧
    (false = true → evaluateAutoOrder wProduct "l1" 2 false = true) :=
  evaluateAutoOrder_low_stock wProduct "l1" 2 false
    { locationId := "l1", minThreshold := some 5, isAvailable := true } 5
    (by decide) rfl

end MLInventory
